import Mathlib

/-!
# Verification of the Phoenix-SmartCaseAI generation and file-analysis core

Shallow embedding of the multi-provider generation pipeline
(`SmartCaseAI/generator.py`) and of the file analyzers
(`SmartCaseAI/file_analyzer.py`, `src/phoenix_smartcaseai/unified_file_analyzer.py`).

Modelling conventions:
* JSON values are an inductive `Json`; a provider's textual response is a
  `RawText` that is either valid JSON (carrying the parsed value) or not.
  The model assumes the response payload is plain JSON text (no markdown
  fence), which is the situation the specification describes.
* Python exceptions are modelled as values: the generator's errors as the
  inductive `GenError` (with `GenError.message` rendering the exact Python
  message strings), the analyzers' exceptions as plain message strings.
* Effects of the external LLM libraries are inputs: an `LLMBehavior` is
  what `chain.invoke` would do (raise, or return a response text).  The
  message text of the external parser's exceptions is modelled by
  `parseErrMsg`, which renders the offending payload, mirroring the fact
  that langchain's `OutputParserException` embeds the offending completion
  text (so distinct payloads yield distinct messages).
* Pydantic v2 validation of `TestCase` / `BDDScenario` is embedded at the
  `Json` level; extra object keys are ignored, as pydantic v2 does by
  default (this is why the merge step's `id` stamp has no effect on
  `BDDScenario`, which declares no `id` field).
-/

namespace SmartCaseAI

/-- A JSON value, as produced by Python's `json.loads` (object keys unique). -/
inductive Json where
  | null : Json
  | bool : Bool → Json
  | num : Int → Json
  | str : String → Json
  | arr : List Json → Json
  | obj : List (String × Json) → Json

/-- Pydantic model `TestCase` from `SmartCaseAI/generator.py`. -/
structure TestCase where
  id : Int
  title : String
  description : String
  preconditions : Option String
  steps : List String
  expected : String
  type : String
  provider : Option String
deriving DecidableEq

/-- Pydantic model `BDDScenario` from `SmartCaseAI/generator.py`. -/
structure BDDScenario where
  feature : String
  scenario : String
  given : List String
  «when» : List String
  «then» : List String
  provider : Option String
deriving DecidableEq

/-- The value of the `TestCaseList` / `BDDScenarioList` root model returned by
`_generate_with_single_provider`: a list of one of the two item types,
selected by the output format. -/
inductive RootRes where
  | plain : List TestCase → RootRes
  | bdd : List BDDScenario → RootRes
deriving DecidableEq

/-- The two valid output formats. -/
inductive OutputFormat where
  | plain : OutputFormat
  | bdd : OutputFormat
deriving DecidableEq

/-- Python dict lookup on a parsed JSON object (keys are unique, so taking the
first match agrees with `json.loads` semantics). -/
def jLookup (fields : List (String × Json)) (key : String) : Option Json :=
  (fields.find? (fun f => f.1 = key)).map (fun f => f.2)

/-- Pydantic coercion of a JSON value to `str` (v2 lax mode does not coerce
numbers to strings). -/
def asString : Json → Option String
  | .str s => some s
  | _ => none

/-- Pydantic coercion of a JSON value to `int`. -/
def asInt : Json → Option Int
  | .num n => some n
  | _ => none

/-- Pydantic coercion of a JSON value to `List[str]`. -/
def asStringList : Json → Option (List String)
  | .arr items => items.mapM asString
  | _ => none

/-- Pydantic validation of an `Optional[str]` field with default `None`:
absent or `null` yields `None`, a string yields itself, anything else fails. -/
def asOptString : Option Json → Option (Option String)
  | none => some none
  | some .null => some none
  | some (.str s) => some (some s)
  | some _ => none

/-- Pydantic validation of one `TestCase` object. -/
def parseTestCase (j : Json) : Option TestCase :=
  match j with
  | .obj fields => do
      let id ← jLookup fields "id" >>= asInt
      let title ← jLookup fields "title" >>= asString
      let description ← jLookup fields "description" >>= asString
      let preconditions ← asOptString (jLookup fields "preconditions")
      let steps ← jLookup fields "steps" >>= asStringList
      let expected ← jLookup fields "expected" >>= asString
      let ty ← jLookup fields "type" >>= asString
      let provider ← asOptString (jLookup fields "provider")
      some { id := id, title := title, description := description,
             preconditions := preconditions, steps := steps,
             expected := expected, type := ty, provider := provider }
  | _ => none

/-- Pydantic validation of one `BDDScenario` object. -/
def parseBDDScenario (j : Json) : Option BDDScenario :=
  match j with
  | .obj fields => do
      let feature ← jLookup fields "feature" >>= asString
      let scenario ← jLookup fields "scenario" >>= asString
      let g ← jLookup fields "given" >>= asStringList
      let w ← jLookup fields "when" >>= asStringList
      let t ← jLookup fields "then" >>= asStringList
      let provider ← asOptString (jLookup fields "provider")
      some { feature := feature, scenario := scenario, given := g,
             «when» := w, «then» := t, provider := provider }
  | _ => none

/-- A strict-parse failure: either the raw text was not JSON at all, or the
JSON value did not validate against the target root schema.  The offending
payload is carried, because the exception object (and its message, which
embeds the offending text) identifies which parse failed. -/
inductive ParseErr where
  | notJson : String → ParseErr
  | invalid : Json → ParseErr

mutual

/-- Renders a JSON value back to text (models `json.dumps` /
the payload text embedded in the parser's exception message). -/
def renderJson : Json → String
  | .null => "null"
  | .bool true => "true"
  | .bool false => "false"
  | .num n => toString n
  | .str s => "\"" ++ s ++ "\""
  | .arr items => "[" ++ renderJsonArr items ++ "]"
  | .obj fields => "\x7b" ++ renderJsonObj fields ++ "\x7d"

/-- Renders the comma-separated elements of a JSON array. -/
def renderJsonArr : List Json → String
  | [] => ""
  | [j] => renderJson j
  | j :: rest => renderJson j ++ ", " ++ renderJsonArr rest

/-- Renders the comma-separated members of a JSON object. -/
def renderJsonObj : List (String × Json) → String
  | [] => ""
  | [(k, v)] => "\"" ++ k ++ "\": " ++ renderJson v
  | (k, v) :: rest => "\"" ++ k ++ "\": " ++ renderJson v ++ ", " ++ renderJsonObj rest

end

/-- `str(e)` of the strict-parse exception (models the message of langchain's
`OutputParserException`, which embeds the offending text). -/
def parseErrMsg : ParseErr → String
  | .notJson s => "Invalid json output: " ++ s
  | .invalid j => "Failed to parse output: " ++ renderJson j

/-- Strict schema-conformant parse of a JSON value against the root model
selected by the output format (`PydanticOutputParser` with `TestCaseList`
or `BDDScenarioList`): the value must be an array whose every element
validates. -/
def strictParseJson (format : OutputFormat) (j : Json) : Except ParseErr RootRes :=
  match format with
  | .plain =>
      match j with
      | .arr items =>
          match items.mapM parseTestCase with
          | some cases => .ok (.plain cases)
          | none => .error (.invalid j)
      | _ => .error (.invalid j)
  | .bdd =>
      match j with
      | .arr items =>
          match items.mapM parseBDDScenario with
          | some scenarios => .ok (.bdd scenarios)
          | none => .error (.invalid j)
      | _ => .error (.invalid j)

/-- A provider's textual response payload: either valid JSON text (carrying
the value `json.loads` would produce) or text that is not valid JSON. -/
inductive RawText where
  | json : Json → RawText
  | notJson : String → RawText

/-- Strict parse of the raw response text (`parser.parse(response_content)`). -/
def strictParseText (format : OutputFormat) (raw : RawText) : Except ParseErr RootRes :=
  match raw with
  | .json j => strictParseJson format j
  | .notJson s => .error (.notJson s)

/-- The response-handling block of `_generate_with_single_provider`
(generator.py lines 208-224): strict parse; on failure re-parse the raw text
as arbitrary JSON and, if the top level is a dict containing a key `items`,
re-attempt the strict parse against that value (the code does not check that
the value is an array).  If the raw text is not valid JSON, or is JSON
without an `items` envelope, the original failure is re-raised; if the
re-attempted strict parse fails, that (new) failure propagates. -/
def parseWithRepair (format : OutputFormat) (raw : RawText) : Except ParseErr RootRes :=
  match strictParseText format raw with
  | .ok r => .ok r
  | .error e =>
      match raw with
      | .notJson _ => .error e
      | .json j =>
          match j with
          | .obj fields =>
              match jLookup fields "items" with
              | some itemsVal => strictParseJson format itemsVal
              | none => .error e
          | _ => .error e

/-- The exceptions the generator can raise, with their exact Python messages
rendered by `GenError.message`. -/
inductive GenError where
  | invalidFormat : GenError
  | generationFailed : String → String → String → GenError
  | allProvidersFailed : GenError
  | validationError : GenError
deriving DecidableEq

/-- `str(e)` of a generator exception, exactly as raised by `generator.py`. -/
def GenError.message : GenError → String
  | .invalidFormat => "Output format must be 'plain' or 'bdd'."
  | .generationFailed outputFormat providerName detail =>
      "Failed to generate " ++ outputFormat ++ " test cases with " ++ providerName ++ ": " ++ detail
  | .allProvidersFailed => "All LLM providers failed to generate test cases"
  | .validationError => "validation error"

/-- Python's `str.lower()` on ASCII text (the only case the format strings
and file extensions exercise). -/
def pyLower (s : String) : String :=
  String.mk (s.data.map Char.toLower)

/-- What one provider's `chain.invoke` would do for this request: raise an
exception, or return a response whose textual payload is `raw`. -/
inductive LLMBehavior where
  | failure : String → LLMBehavior
  | response : RawText → LLMBehavior

/-- The full user-story prompt text built by `_generate_with_single_provider`
(generator.py lines 159-162): the additional-context section is omitted
entirely when the context is empty. -/
def buildFullContext (userStory additionalContext : String) : String :=
  if additionalContext ≠ "" then
    userStory ++ "\n\nAdditional Context from Files:\n" ++ additionalContext
  else
    userStory

/-- The `try` block of `_generate_with_single_provider` once a format has
been selected: invoke the LLM, parse (with the one repair attempt), and wrap
any exception as `Failed to generate {format} test cases with {provider}`.
Also returns the number of LLM invocations performed (0 or 1). -/
def runProvider (format : OutputFormat) (providerName : String) (llm : LLMBehavior)
    (outputFormat : String) : Except GenError RootRes × Nat :=
  match llm with
  | .failure msg => (.error (.generationFailed outputFormat providerName msg), 1)
  | .response raw =>
      match parseWithRepair format raw with
      | .ok r => (.ok r, 1)
      | .error e => (.error (.generationFailed outputFormat providerName (parseErrMsg e)), 1)

/-- `_generate_with_single_provider` (generator.py lines 148-227).  The format
check is case-insensitive (`output_format.lower()`) and the invalid-format
`ValueError` is raised outside the `try`, before the LLM is invoked (second
component 0). The user story and additional context only influence the prompt,
whose effect on the provider is captured by the given `LLMBehavior`. -/
def singleProvider (providerName : String) (llm : LLMBehavior)
    (_userStory outputFormat _additionalContext : String) : Except GenError RootRes × Nat :=
  if pyLower outputFormat = "plain" then
    runProvider .plain providerName llm outputFormat
  else if pyLower outputFormat = "bdd" then
    runProvider .bdd providerName llm outputFormat
  else
    (.error .invalidFormat, 0)

/-- `True` exactly on `Except.error`. -/
def isErr : Except GenError RootRes → Bool
  | .error _ => true
  | .ok _ => false

/-- The `all_results` dict built by `_generate_with_multiple_providers`
(generator.py lines 239-250): each provider is tried in configuration order,
an individual failure is caught (and logged) and the loop continues. -/
def providerSuccesses (providers : List (String × LLMBehavior))
    (userStory outputFormat additionalContext : String) : List (String × RootRes) :=
  providers.filterMap fun p =>
    match (singleProvider p.1 p.2 userStory outputFormat additionalContext).1 with
    | .ok r => some (p.1, r)
    | .error _ => none

/-- One provider's slice of the merge loop for plain test cases: each case's
dict gets `id` overwritten with the running counter and `provider` with the
producing provider's name, then is rebuilt as a `TestCase` (the dict
round-trip preserves all other fields). -/
def stampPlain : Int → String → List TestCase → List TestCase
  | _, _, [] => []
  | n, pname, c :: cs => { c with id := n, provider := some pname } :: stampPlain (n + 1) pname cs

/-- The merge loop over all succeeding providers for plain test cases, with
the id counter starting at 1 and running across the whole merged list. -/
def combinePlain : Int → List (String × List TestCase) → List TestCase
  | _, [] => []
  | n, (pname, cases) :: rest => stampPlain n pname cases ++ combinePlain (n + cases.length) rest

/-- One provider's slice of the merge loop for BDD scenarios: the loop also
writes an `id` key into each scenario's dict, but `BDDScenario` declares no
`id` field and pydantic v2 ignores the extra key when rebuilding, so only
`provider` is stamped. -/
def stampBdd (pname : String) (bs : List BDDScenario) : List BDDScenario :=
  bs.map fun b => { b with provider := some pname }

/-- The merge loop over all succeeding providers for BDD scenarios. -/
def combineBdd : List (String × List BDDScenario) → List BDDScenario
  | [] => []
  | (pname, bs) :: rest => stampBdd pname bs ++ combineBdd rest

/-- Projection used when rebuilding the merged plain list; a non-plain result
under the plain format would make pydantic's rebuild raise (unreachable,
since every success was produced under the same format). -/
def asPlain : RootRes → Option (List TestCase)
  | .plain cs => some cs
  | .bdd _ => none

/-- Projection used when rebuilding the merged BDD list. -/
def asBdd : RootRes → Option (List BDDScenario)
  | .bdd bs => some bs
  | .plain _ => none

/-- `_generate_with_multiple_providers` (generator.py lines 230-282): run every
provider, catching individual failures; raise the aggregate error if none
succeeded; return the single success untouched if exactly one succeeded;
otherwise merge in provider-configuration order, re-indexing ids from 1
(plain only) and stamping each item's `provider`. -/
def multiProvider (providers : List (String × LLMBehavior))
    (userStory outputFormat additionalContext : String) : Except GenError RootRes :=
  let successes := providerSuccesses providers userStory outputFormat additionalContext
  match successes with
  | [] => .error .allProvidersFailed
  | [s] => .ok s.2
  | _ =>
      if pyLower outputFormat = "plain" then
        match successes.mapM (fun s => (asPlain s.2).map fun cs => (s.1, cs)) with
        | some lists => .ok (.plain (combinePlain 1 lists))
        | none => .error .validationError
      else
        match successes.mapM (fun s => (asBdd s.2).map fun bs => (s.1, bs)) with
        | some lists => .ok (.bdd (combineBdd lists))
        | none => .error .validationError

/-- `_generate` (generator.py lines 284-300): multi-provider mode when the
selection is `"all"` or more than one client is configured, otherwise the
single configured provider (`list(self.llms)[0]`; the constructor guarantees
the client dict is non-empty). -/
def generate (llmProvider : String) (llms : List (String × LLMBehavior))
    (userStory outputFormat additionalContext : String) : Except GenError RootRes :=
  if llmProvider = "all" ∨ llms.length > 1 then
    multiProvider llms userStory outputFormat additionalContext
  else
    match llms with
    | [] => .error .allProvidersFailed
    | (name, llm) :: _ => (singleProvider name llm userStory outputFormat additionalContext).1

/-- The additional-context string computed by `generate_test_cases`
(generator.py lines 329-355) from the outcome of file analysis: `none` means
no additional files were supplied (or discovered), `some (.ok s)` a combined
analysis `s`, and `some (.error msg)` an exception raised while analyzing,
which is absorbed into a note string. -/
def contextOfAnalysis : Option (Except String String) → String
  | none => ""
  | some (.ok s) => s
  | some (.error msg) => "Note: File analysis failed: " ++ msg

/-- The `result[:num_cases]` slice. -/
def truncRoot (n : Nat) : RootRes → RootRes
  | .plain cs => .plain (cs.take n)
  | .bdd bs => .bdd (bs.take n)

/-- Length of the parsed/merged list. -/
def rootLength : RootRes → Nat
  | .plain cs => cs.length
  | .bdd bs => bs.length

/-- `generate_test_cases` (generator.py lines 302-364): derive the additional
context from the file-analysis outcome, generate, and trim with
`if num_cases: result = result[:num_cases]` — a falsy `num_cases` (absent
or 0) skips the trim. -/
def generate_test_cases (llmProvider : String) (llms : List (String × LLMBehavior))
    (userStory outputFormat : String) (numCases : Option Nat)
    (fileAnalysis : Option (Except String String)) : Except GenError RootRes :=
  let additionalContext := contextOfAnalysis fileAnalysis
  match generate llmProvider llms userStory outputFormat additionalContext with
  | .error e => .error e
  | .ok r =>
      match numCases with
      | some n => if n ≠ 0 then .ok (truncRoot n r) else .ok r
      | none => .ok r

/-! ## File analyzers -/

/-- The set of LLM clients that initialized successfully
(`UnifiedFileAnalyzer.llm_clients` key membership). -/
structure ClientSet where
  openai : Bool
  gemini : Bool
  claude : Bool
deriving DecidableEq

/-- `self.visual_extensions` of `unified_file_analyzer.py`. -/
def visual_extensions : List String :=
  [".png", ".jpg", ".jpeg", ".gif", ".webp", ".bmp", ".tiff"]

/-- `self.video_extensions` of `unified_file_analyzer.py`. -/
def video_extensions : List String :=
  [".mp4", ".avi", ".mov", ".wmv", ".mkv", ".webm"]

/-- Index of the last `'.'` in a character list, if any. -/
def lastDotIdx (cs : List Char) : Option Nat :=
  ((cs.enum.filter fun p => p.2 = '.').map fun p => p.1).getLast?

/-- Splits a character list on a separator character (like Python's
`str.split` with one separator). -/
def splitOnChar (sep : Char) : List Char → List (List Char)
  | [] => [[]]
  | c :: rest =>
      match splitOnChar sep rest with
      | [] => [[]]
      | g :: gs => if c = sep then [] :: g :: gs else (c :: g) :: gs

/-- `Path(file_path).suffix`: the extension (with dot) of the final path
component; empty when the last dot is leading (hidden files) or trailing. -/
def pathSuffix (path : String) : String :=
  let name := ((splitOnChar '/' path.data).filter fun c => c ≠ []).getLastD []
  match lastDotIdx name with
  | none => ""
  | some i => if 0 < i ∧ i < name.length - 1 then String.mk (name.drop i) else ""

/-- `UnifiedFileAnalyzer._get_provider_for_file` (unified_file_analyzer.py
lines 169-188).  Note the visual/video branch has no `else`: when neither
gemini nor openai is configured for a visual file, control falls through to
the document preference chain. -/
def get_provider_for_file (clients : ClientSet) (filePath : String) : String :=
  let fileExt := pyLower (pathSuffix filePath)
  if (fileExt ∈ visual_extensions ∨ fileExt ∈ video_extensions) ∧ clients.gemini then
    "gemini"
  else if (fileExt ∈ visual_extensions ∨ fileExt ∈ video_extensions) ∧ clients.openai then
    "openai"
  else if clients.openai then "openai"
  else if clients.claude then "claude"
  else if clients.gemini then "gemini"
  else "none"

/-- Whether a provider name is among the configured clients. -/
def isConfigured (clients : ClientSet) : String → Bool
  | "openai" => clients.openai
  | "gemini" => clients.gemini
  | "claude" => clients.claude
  | _ => false

/-- The router's effective priority order, stated as configuration data:
who is asked first, second, third for a visual versus a non-visual file. -/
def routerPriority (isVisual : Bool) : List String :=
  if isVisual then ["gemini", "openai", "claude"]
  else ["openai", "claude", "gemini"]

/-- The first configured provider in a priority list, or the `"none"`
sentinel. -/
def firstConfiguredProvider (clients : ClientSet) (priority : List String) : String :=
  (priority.find? (isConfigured clients)).getD "none"

/-- The `FileAnalysisResult` container class (identical in
`file_analyzer.py` and `unified_file_analyzer.py`); `metadata` is modelled
as the string-valued entries of the open key-value bag, which are the only
ones the claims inspect. -/
structure FileAnalysisResult where
  file_path : String
  file_type : String
  content : String
  metadata : List (String × String)
  summary : String
deriving DecidableEq

/-- `FileAnalysisResult._generate_summary`: empty content gives a fixed
message, otherwise the type plus a 500-character content preview. -/
def generateSummary (file_type content : String) : String :=
  if content = "" then "No content extracted from file."
  else
    "File type: " ++ file_type ++ "\nContent preview: " ++
      (if content.length > 500 then content.take 500 ++ "..." else content)

/-- The `FileAnalysisResult` constructor, which computes `summary`. -/
def mkFileAnalysisResult (file_path file_type content : String)
    (metadata : List (String × String)) : FileAnalysisResult :=
  { file_path := file_path, file_type := file_type, content := content,
    metadata := metadata, summary := generateSummary file_type content }

/-- The error result the legacy batch loop records for a file whose
`analyze_file` raised (file_analyzer.py lines 516-524). -/
def errorResultFor (path msg : String) : FileAnalysisResult :=
  mkFileAnalysisResult path "error" ("Error analyzing file: " ++ msg) [("error", msg)]

/-- `FileAnalyzer.analyze_multiple_files` (legacy, file_analyzer.py lines
501-526), over the outcome of each per-file `analyze_file` call (which may
raise, e.g. `FileNotFoundError`): a failure is caught and recorded as an
error-tagged result; the loop never aborts. -/
def legacy_analyze_multiple_files
    (outcomes : List (String × Except String FileAnalysisResult)) : List FileAnalysisResult :=
  match outcomes with
  | [] => []
  | (path, oc) :: rest =>
      (match oc with
       | .ok r => r
       | .error e => errorResultFor path e) :: legacy_analyze_multiple_files rest

/-- What the file system provides at a path for the unified analyzer: the
path may not exist, or content extraction
(`_extract_content_and_metadata`) either raises or yields a base result. -/
inductive FsFile where
  | missing : FsFile
  | file : Except String FileAnalysisResult → FsFile

/-- The result dictionary returned by `UnifiedFileAnalyzer.analyze_file`;
`error` is present only in the two error dictionaries, `provider` and
`enhanced_analysis` only in the success dictionary. -/
structure AnalyzeFileResult where
  file_path : String
  file_type : String
  error : Option String
  content : String
  metadata : List (String × String)
  analysis : String
  provider : Option String
  enhanced_analysis : Option String
deriving DecidableEq

/-- `UnifiedFileAnalyzer.analyze_file` (unified_file_analyzer.py lines
190-243): a missing path and a raising extraction each yield an
error-tagged dictionary instead of propagating; otherwise the file is routed
and the LLM enhancement (whose own failure, inner or outer, falls back to
the base summary) fills `analysis`.  The function is total: it never
raises. -/
def analyze_file (clients : ClientSet) (path : String) (fs : FsFile)
    (enhanceOutcome : Except String String) : AnalyzeFileResult :=
  match fs with
  | .missing =>
      { file_path := path, file_type := "error", error := some "File not found",
        content := "", metadata := [], analysis := "File not found",
        provider := none, enhanced_analysis := none }
  | .file (.error e) =>
      { file_path := path, file_type := "error", error := some e,
        content := "", metadata := [], analysis := "Failed to extract content: " ++ e,
        provider := none, enhanced_analysis := none }
  | .file (.ok base) =>
      let provider := get_provider_for_file clients path
      let enhanced :=
        if provider ≠ "none" then
          match enhanceOutcome with
          | .ok s => s
          | .error _ => base.summary
        else base.summary
      { file_path := path, file_type := base.file_type, error := none,
        content := base.content, metadata := base.metadata, analysis := enhanced,
        provider := some provider, enhanced_analysis := some enhanced }

/-- One file's inputs to the unified batch loop. -/
structure AnalyzeCall where
  path : String
  fs : FsFile
  enhanceOutcome : Except String String

/-- `UnifiedFileAnalyzer.analyze_multiple_files` (unified_file_analyzer.py
lines 601-619).  Its `try`/`except` would skip a file whose `analyze_file`
raised, recording nothing for it — but `analyze_file` is total (it converts
its own failures into error dictionaries), so the except branch is dead and
every file contributes a result. -/
def unified_analyze_multiple_files (clients : ClientSet)
    (calls : List AnalyzeCall) : List AnalyzeFileResult :=
  match calls with
  | [] => []
  | c :: rest =>
      analyze_file clients c.path c.fs c.enhanceOutcome ::
        unified_analyze_multiple_files clients rest

/-! ## Concrete fixtures used to evaluate the definitions on closed inputs -/

/-- A schema-valid plain test-case object, as a JSON value. -/
def tcJson (n : Int) : Json :=
  .obj [("id", .num n), ("title", .str "t"), ("description", .str "d"),
        ("steps", .arr [.str "s1"]), ("expected", .str "e"), ("type", .str "positive")]

/-- The `TestCase` that `tcJson n` validates to. -/
def tcVal (n : Int) : TestCase :=
  { id := n, title := "t", description := "d", preconditions := none,
    steps := ["s1"], expected := "e", type := "positive", provider := none }

/-- A schema-valid BDD scenario object, as a JSON value. -/
def bddJson : Json :=
  .obj [("feature", .str "Login"), ("scenario", .str "ok"),
        ("given", .arr [.str "g"]), ("when", .arr [.str "w"]), ("then", .arr [.str "t"])]

/-- The `BDDScenario` that `bddJson` validates to. -/
def bddVal : BDDScenario :=
  { feature := "Login", scenario := "ok", given := ["g"], «when» := ["w"],
    «then» := ["t"], provider := none }

/-! ## Helper lemmas -/

theorem singleProvider_format_plain (providerName : String) (llm : LLMBehavior)
    (userStory outputFormat additionalContext : String) (h : pyLower outputFormat = "plain") :
    singleProvider providerName llm userStory outputFormat additionalContext =
      runProvider .plain providerName llm outputFormat := by
  simp [singleProvider, h]

theorem singleProvider_format_bdd (providerName : String) (llm : LLMBehavior)
    (userStory outputFormat additionalContext : String) (h : pyLower outputFormat = "bdd") :
    singleProvider providerName llm userStory outputFormat additionalContext =
      runProvider .bdd providerName llm outputFormat := by
  simp [singleProvider, h]

/-- The strict root-model parse rejects any JSON object (the root schema is an
array). -/
theorem strictParseJson_obj (format : OutputFormat) (fields : List (String × Json)) :
    strictParseJson format (.obj fields) = .error (.invalid (.obj fields)) := by
  cases format <;> rfl

/-- Once a format has been selected, the LLM is invoked exactly once. -/
theorem runProvider_invocations (format : OutputFormat) (providerName : String)
    (llm : LLMBehavior) (outputFormat : String) :
    (runProvider format providerName llm outputFormat).2 = 1 := by
  cases llm with
  | failure msg => rfl
  | response raw =>
      cases hp : parseWithRepair format raw <;> simp [runProvider, hp]

/-- Any error escaping the selected-format pipeline is a wrapped
generation failure naming the requested format and the provider. -/
theorem runProvider_error_generationFailed (format : OutputFormat) (providerName : String)
    (llm : LLMBehavior) (outputFormat : String) (e : GenError)
    (h : (runProvider format providerName llm outputFormat).1 = .error e) :
    ∃ detail, e = .generationFailed outputFormat providerName detail := by
  cases llm with
  | failure msg =>
      simp [runProvider] at h
      exact ⟨msg, h.symm⟩
  | response raw =>
      cases hp : parseWithRepair format raw with
      | ok r => simp [runProvider, hp] at h
      | error pe =>
          simp [runProvider, hp] at h
          exact ⟨parseErrMsg pe, h.symm⟩

theorem providerSuccesses_cons_ok (p : String × LLMBehavior)
    (rest : List (String × LLMBehavior)) (userStory outputFormat additionalContext : String)
    (r : RootRes)
    (h : (singleProvider p.1 p.2 userStory outputFormat additionalContext).1 = .ok r) :
    providerSuccesses (p :: rest) userStory outputFormat additionalContext =
      (p.1, r) :: providerSuccesses rest userStory outputFormat additionalContext := by
  simp [providerSuccesses, List.filterMap_cons, h]

theorem providerSuccesses_cons_err (p : String × LLMBehavior)
    (rest : List (String × LLMBehavior)) (userStory outputFormat additionalContext : String)
    (h : isErr (singleProvider p.1 p.2 userStory outputFormat additionalContext).1 = true) :
    providerSuccesses (p :: rest) userStory outputFormat additionalContext =
      providerSuccesses rest userStory outputFormat additionalContext := by
  cases he : (singleProvider p.1 p.2 userStory outputFormat additionalContext).1 with
  | ok r => rw [he] at h; simp [isErr] at h
  | error e => simp [providerSuccesses, List.filterMap_cons, he]

/-! ## Claims -/

/-- C2: for every schema-valid JSON array `A` of test cases or BDD scenarios,
parsing a provider response whose text is the JSON object `{"items": A}`
through the single repair heuristic yields a result set identical to parsing
the bare array `A` directly. -/
theorem items_envelope_roundtrip (providerName userStory outputFormat additionalContext : String)
    (format : OutputFormat) (A : List Json) (r : RootRes)
    (hFmt : (pyLower outputFormat = "plain" ∧ format = .plain) ∨
            (pyLower outputFormat = "bdd" ∧ format = .bdd))
    (h : strictParseJson format (.arr A) = .ok r) :
    singleProvider providerName (.response (.json (.obj [("items", .arr A)])))
        userStory outputFormat additionalContext = (.ok r, 1)
    ∧ singleProvider providerName (.response (.json (.arr A)))
        userStory outputFormat additionalContext = (.ok r, 1) := by
  have henv : parseWithRepair format (.json (.obj [("items", .arr A)])) = .ok r := by
    have hobj := strictParseJson_obj format [("items", .arr A)]
    simp [parseWithRepair, strictParseText, hobj, jLookup, h]
  have hbare : parseWithRepair format (.json (.arr A)) = .ok r := by
    simp [parseWithRepair, strictParseText, h]
  rcases hFmt with ⟨hf, rfl⟩ | ⟨hf, rfl⟩
  · exact ⟨by rw [singleProvider_format_plain _ _ _ _ _ hf]; simp [runProvider, henv],
           by rw [singleProvider_format_plain _ _ _ _ _ hf]; simp [runProvider, hbare]⟩
  · exact ⟨by rw [singleProvider_format_bdd _ _ _ _ _ hf]; simp [runProvider, henv],
           by rw [singleProvider_format_bdd _ _ _ _ _ hf]; simp [runProvider, hbare]⟩

/-- Witness for `items_envelope_roundtrip` at a concrete schema-valid array. -/
theorem items_envelope_roundtrip_witness :
    ((pyLower "plain" = "plain" ∧ OutputFormat.plain = OutputFormat.plain) ∨
      (pyLower "plain" = "bdd" ∧ OutputFormat.plain = OutputFormat.bdd))
    ∧ strictParseJson .plain (.arr [tcJson 1]) = .ok (.plain [tcVal 1])
    ∧ singleProvider "openai" (.response (.json (.obj [("items", .arr [tcJson 1])])))
        "s" "plain" "" = (.ok (.plain [tcVal 1]), 1)
    ∧ singleProvider "openai" (.response (.json (.arr [tcJson 1]))) "s" "plain" "" =
        (.ok (.plain [tcVal 1]), 1) := by
  refine ⟨Or.inl ⟨by decide, rfl⟩, rfl, ?_, ?_⟩
  · exact (items_envelope_roundtrip "openai" "s" "plain" "" .plain [tcJson 1] (.plain [tcVal 1])
      (Or.inl ⟨by decide, rfl⟩) rfl).1
  · exact (items_envelope_roundtrip "openai" "s" "plain" "" .plain [tcJson 1] (.plain [tcVal 1])
      (Or.inl ⟨by decide, rfl⟩) rfl).2

/-- C3 counterexample: the claim requires every `output_format` other than
exactly `"plain"`/`"bdd"` to fail with the invalid-format error before any
LLM call; but `"PLAIN"` is neither of the two exact values and nevertheless
reaches the provider (one invocation) and surfaces a wrapped generation
failure, not the invalid-format error. -/
theorem invalid_format_check_counterexample :
    singleProvider "openai" (.failure "boom") "story" "PLAIN" "" =
      (.error (.generationFailed "PLAIN" "openai" "boom"), 1)
    ∧ GenError.generationFailed "PLAIN" "openai" "boom" ≠ .invalidFormat
    ∧ "PLAIN" ≠ "plain" ∧ "PLAIN" ≠ "bdd" :=
  ⟨rfl, by decide, by decide, by decide⟩

/-- C3 (amended): the format check is case-insensitive — generation fails
with the invalid-format error, before any LLM invocation, exactly when the
lowercased format is neither `"plain"` nor `"bdd"`; otherwise the LLM is
invoked once and no invalid-format error can surface. -/
theorem invalid_format_check_amended :
    (∀ (providerName : String) (llm : LLMBehavior)
       (userStory outputFormat additionalContext : String),
      pyLower outputFormat ≠ "plain" → pyLower outputFormat ≠ "bdd" →
      singleProvider providerName llm userStory outputFormat additionalContext =
        (.error .invalidFormat, 0))
    ∧ (∀ (providerName : String) (llm : LLMBehavior)
         (userStory outputFormat additionalContext : String),
        (pyLower outputFormat = "plain" ∨ pyLower outputFormat = "bdd") →
        (singleProvider providerName llm userStory outputFormat additionalContext).2 = 1
        ∧ ∀ e, (singleProvider providerName llm userStory outputFormat additionalContext).1 =
            .error e → e ≠ .invalidFormat) := by
  constructor
  · intro providerName llm userStory outputFormat additionalContext h1 h2
    simp [singleProvider, h1, h2]
  · intro providerName llm userStory outputFormat additionalContext h
    have hrun : ∀ format : OutputFormat,
        singleProvider providerName llm userStory outputFormat additionalContext =
          runProvider format providerName llm outputFormat →
        (singleProvider providerName llm userStory outputFormat additionalContext).2 = 1
        ∧ ∀ e, (singleProvider providerName llm userStory outputFormat additionalContext).1 =
            .error e → e ≠ .invalidFormat := by
      intro format heq
      rw [heq]
      refine ⟨runProvider_invocations format providerName llm outputFormat, ?_⟩
      intro e he
      obtain ⟨detail, rfl⟩ :=
        runProvider_error_generationFailed format providerName llm outputFormat e he
      simp
    rcases h with hf | hf
    · exact hrun .plain (singleProvider_format_plain _ _ _ _ _ hf)
    · exact hrun .bdd (singleProvider_format_bdd _ _ _ _ _ hf)

/-- Witness for `invalid_format_check_amended` at concrete formats. -/
theorem invalid_format_check_witness :
    (pyLower "markdown" ≠ "plain" ∧ pyLower "markdown" ≠ "bdd")
    ∧ singleProvider "openai" (.failure "x") "s" "markdown" "" = (.error .invalidFormat, 0)
    ∧ (pyLower "bdd" = "plain" ∨ pyLower "bdd" = "bdd")
    ∧ (singleProvider "openai" (.failure "x") "s" "bdd" "").2 = 1 := by
  refine ⟨⟨by decide, by decide⟩, ?_, Or.inr (by decide), ?_⟩
  · exact invalid_format_check_amended.1 "openai" (.failure "x") "s" "markdown" ""
      (by decide) (by decide)
  · exact (invalid_format_check_amended.2 "openai" (.failure "x") "s" "bdd" ""
      (Or.inr (by decide))).1

/-- C6 counterexample: when the response is the object
`{"items": ["x"]}` (whose `items` array is not schema-valid), the claim says
the ORIGINAL parse failure — the strict-parse failure on the whole object —
is propagated; but the code re-raises the failure of the repair's re-parse
of the `items` value, whose exception (and message) concerns the array
`["x"]`, not the original object. -/
theorem repair_error_propagation_counterexample :
    singleProvider "openai" (.response (.json (.obj [("items", .arr [.str "x"])])))
        "s" "plain" "" =
      (.error (.generationFailed "plain" "openai"
        (parseErrMsg (.invalid (.arr [.str "x"])))), 1)
    ∧ strictParseText .plain (.json (.obj [("items", .arr [.str "x"])])) =
        .error (.invalid (.obj [("items", .arr [.str "x"])]))
    ∧ parseErrMsg (.invalid (.arr [.str "x"])) ≠
        parseErrMsg (.invalid (.obj [("items", .arr [.str "x"])])) :=
  ⟨rfl, rfl, by decide⟩

/-- C6 (amended): when the raw text is not valid JSON, or is valid JSON that
is not an object containing an `items` key, the original strict-parse failure
is propagated; when it is an object with an `items` key whose strict re-parse
also fails, the REPAIR's parse failure is propagated instead; no further
heuristics run, and in every case the surfaced error is
`Failed to generate {format} test cases with {provider}: {detail}`. -/
theorem repair_error_propagation
    (providerName userStory outputFormat additionalContext : String) (format : OutputFormat)
    (hFmt : (pyLower outputFormat = "plain" ∧ format = .plain) ∨
            (pyLower outputFormat = "bdd" ∧ format = .bdd)) :
    (∀ s : String,
      singleProvider providerName (.response (.notJson s)) userStory outputFormat
          additionalContext =
        (.error (.generationFailed outputFormat providerName (parseErrMsg (.notJson s))), 1))
    ∧ (∀ (j : Json) (e : ParseErr), strictParseJson format j = .error e →
        (∀ fields, j = .obj fields → jLookup fields "items" = none) →
        singleProvider providerName (.response (.json j)) userStory outputFormat
            additionalContext =
          (.error (.generationFailed outputFormat providerName (parseErrMsg e)), 1))
    ∧ (∀ (fields : List (String × Json)) (itemsVal : Json) (e e' : ParseErr),
        strictParseJson format (.obj fields) = .error e →
        jLookup fields "items" = some itemsVal →
        strictParseJson format itemsVal = .error e' →
        singleProvider providerName (.response (.json (.obj fields))) userStory outputFormat
            additionalContext =
          (.error (.generationFailed outputFormat providerName (parseErrMsg e')), 1))
    ∧ (∀ detail : String,
        (GenError.generationFailed outputFormat providerName detail).message =
          "Failed to generate " ++ outputFormat ++ " test cases with " ++ providerName ++
            ": " ++ detail) := by
  have hsp : ∀ llm, singleProvider providerName llm userStory outputFormat additionalContext =
      runProvider format providerName llm outputFormat := by
    intro llm
    rcases hFmt with ⟨hf, rfl⟩ | ⟨hf, rfl⟩
    · exact singleProvider_format_plain _ _ _ _ _ hf
    · exact singleProvider_format_bdd _ _ _ _ _ hf
  refine ⟨?_, ?_, ?_, fun _ => rfl⟩
  · intro s
    rw [hsp]
    simp [runProvider, parseWithRepair, strictParseText]
  · intro j e hj hni
    rw [hsp]
    cases j with
    | obj fields =>
        have := hni fields rfl
        simp [runProvider, parseWithRepair, strictParseText, hj, this]
    | null => simp [runProvider, parseWithRepair, strictParseText, hj]
    | bool b => simp [runProvider, parseWithRepair, strictParseText, hj]
    | num n => simp [runProvider, parseWithRepair, strictParseText, hj]
    | str s => simp [runProvider, parseWithRepair, strictParseText, hj]
    | arr items => simp [runProvider, parseWithRepair, strictParseText, hj]
  · intro fields itemsVal e e' h1 h2 h3
    rw [hsp]
    simp [runProvider, parseWithRepair, strictParseText, h1, h2, h3]

/-- Witness for `repair_error_propagation` at concrete failing responses. -/
theorem repair_error_propagation_witness :
    pyLower "plain" = "plain"
    ∧ singleProvider "openai" (.response (.notJson "oops")) "s" "plain" "" =
        (.error (.generationFailed "plain" "openai" (parseErrMsg (.notJson "oops"))), 1)
    ∧ strictParseJson .plain (.num 3) = .error (.invalid (.num 3))
    ∧ singleProvider "openai" (.response (.json (.num 3))) "s" "plain" "" =
        (.error (.generationFailed "plain" "openai" (parseErrMsg (.invalid (.num 3)))), 1)
    ∧ jLookup [("items", Json.arr [.str "x"])] "items" = some (.arr [.str "x"])
    ∧ (GenError.generationFailed "plain" "openai" "d").message =
        "Failed to generate plain test cases with openai: d" := by
  have hthm := repair_error_propagation "openai" "s" "plain" "" .plain (Or.inl ⟨by decide, rfl⟩)
  refine ⟨by decide, hthm.1 "oops", rfl, ?_, rfl, hthm.2.2.2 "d"⟩
  exact hthm.2.1 (.num 3) (.invalid (.num 3)) rfl (by intro fields hf; exact Json.noConfusion hf)

/-- C9: `UnifiedFileAnalyzer.analyze_file` is total (in the model, a function
— it converts its own failures instead of raising): a nonexistent path yields
a `file_type = "error"` dictionary with empty content and the analysis string
`File not found`, and an exception during content extraction yields a
`file_type = "error"` dictionary carrying the exception message. -/
theorem analyze_file_never_raises :
    (∀ (clients : ClientSet) (path : String) (enhanceOutcome : Except String String),
      analyze_file clients path .missing enhanceOutcome =
        { file_path := path, file_type := "error", error := some "File not found",
          content := "", metadata := [], analysis := "File not found",
          provider := none, enhanced_analysis := none })
    ∧ (∀ (clients : ClientSet) (path e : String) (enhanceOutcome : Except String String),
      analyze_file clients path (.file (.error e)) enhanceOutcome =
        { file_path := path, file_type := "error", error := some e,
          content := "", metadata := [], analysis := "Failed to extract content: " ++ e,
          provider := none, enhanced_analysis := none }) :=
  ⟨fun _ _ _ => rfl, fun _ _ _ _ => rfl⟩

/-- C10: an exception raised while analyzing the additional files does not
fail `generate_test_cases`: the additional context becomes
`Note: File analysis failed: {message}` and the rest of the pipeline behaves
exactly as if file analysis had produced that context string. -/
theorem file_analysis_failure_absorbed :
    (∀ msg : String,
      contextOfAnalysis (some (.error msg)) = "Note: File analysis failed: " ++ msg)
    ∧ (∀ (llmProvider : String) (llms : List (String × LLMBehavior))
        (userStory outputFormat : String) (numCases : Option Nat) (msg : String),
        generate_test_cases llmProvider llms userStory outputFormat numCases
            (some (.error msg)) =
          generate_test_cases llmProvider llms userStory outputFormat numCases
            (some (.ok ("Note: File analysis failed: " ++ msg)))) :=
  ⟨fun _ => rfl, fun _ _ _ _ _ _ => rfl⟩

/-- C7 counterexample: for a visual file with only the Claude client
configured, the claim requires the `"none"` sentinel (neither provider named
by the visual rule is configured); but the visual branch has no `else`, so
control falls through to the document chain and the router returns
`"claude"`. -/
theorem provider_router_counterexample :
    get_provider_for_file { openai := false, gemini := false, claude := true } "mock.png" =
      "claude"
    ∧ pyLower (pathSuffix "mock.png") ∈ visual_extensions
    ∧ "claude" ≠ "none" :=
  ⟨rfl, by decide, by decide⟩

/-- Whether an extension is a recognized still-image or video type. -/
def isVisualExt (ext : String) : Bool :=
  decide (ext ∈ visual_extensions ∨ ext ∈ video_extensions)

/-- C7 (amended): the router returns the first configured provider in a
static priority order — `gemini`, `openai`, `claude` for still-image/video
extensions (falling through to the document chain when neither vision
provider is configured), and `openai`, `claude`, `gemini` for everything
else — and the `"none"` sentinel only when no provider at all is
configured. -/
theorem provider_router_priority (clients : ClientSet) (filePath : String) :
    get_provider_for_file clients filePath =
      firstConfiguredProvider clients
        (routerPriority (isVisualExt (pyLower (pathSuffix filePath)))) := by
  obtain ⟨o, g, c⟩ := clients
  by_cases hv : pyLower (pathSuffix filePath) ∈ visual_extensions ∨
      pyLower (pathSuffix filePath) ∈ video_extensions <;>
    cases o <;> cases g <;> cases c <;>
      simp [get_provider_for_file, firstConfiguredProvider, routerPriority, isConfigured,
        isVisualExt, hv]

/-- C5 counterexample: with a provider returning two schema-valid cases, the
claim requires `numCases = 0` to yield an empty list; but `if num_cases:`
treats 0 as falsy, so the slice is skipped and the full two-element list is
returned. -/
theorem num_cases_zero_counterexample :
    generate_test_cases "openai" [("openai", .response (.json (.arr [tcJson 1, tcJson 2])))]
      "s" "plain" (some 0) none = .ok (.plain [tcVal 1, tcVal 2])
    ∧ (Except.ok (RootRes.plain [tcVal 1, tcVal 2]) : Except GenError RootRes) ≠
        .ok (.plain []) := by
  refine ⟨rfl, ?_⟩
  intro h
  have h1 := Except.ok.inj h
  injection h1 with h2
  exact absurd (congrArg List.length h2) (by decide)

/-- C5 (amended): `numCases` = 0 is treated like an absent `numCases` (Python
falsy), yielding the full untruncated list; a positive `numCases` slices the
list to its first `n` entries; a `numCases` greater than the list length
yields the full untruncated list. -/
theorem num_cases_truncation
    (llmProvider : String) (llms : List (String × LLMBehavior))
    (userStory outputFormat additionalContext : String) (r : RootRes)
    (h : generate llmProvider llms userStory outputFormat additionalContext = .ok r) :
    generate_test_cases llmProvider llms userStory outputFormat (some 0)
        (some (.ok additionalContext)) = .ok r
    ∧ generate_test_cases llmProvider llms userStory outputFormat none
        (some (.ok additionalContext)) = .ok r
    ∧ (∀ n : Nat, n ≠ 0 →
        generate_test_cases llmProvider llms userStory outputFormat (some n)
          (some (.ok additionalContext)) = .ok (truncRoot n r))
    ∧ (∀ n : Nat, rootLength r < n →
        generate_test_cases llmProvider llms userStory outputFormat (some n)
          (some (.ok additionalContext)) = .ok r) := by
  have hctx : contextOfAnalysis (some (.ok additionalContext)) = additionalContext := rfl
  refine ⟨?_, ?_, ?_, ?_⟩
  · simp [generate_test_cases, hctx, h]
  · simp [generate_test_cases, hctx, h]
  · intro n hn
    simp [generate_test_cases, hctx, h, hn]
  · intro n hn
    have htr : truncRoot n r = r := by
      cases r with
      | plain cs =>
          simp only [truncRoot, rootLength] at hn ⊢
          rw [List.take_of_length_le (Nat.le_of_lt hn)]
      | bdd bs =>
          simp only [truncRoot, rootLength] at hn ⊢
          rw [List.take_of_length_le (Nat.le_of_lt hn)]
    have hn0 : n ≠ 0 := by
      intro h0
      rw [h0] at hn
      exact Nat.not_lt_zero _ hn
    simp [generate_test_cases, hctx, h, hn0, htr]

/-- Witness for `num_cases_truncation` at a concrete two-case generation. -/
theorem num_cases_truncation_witness :
    generate "openai" [("openai", .response (.json (.arr [tcJson 1, tcJson 2])))]
        "s" "plain" "" = .ok (.plain [tcVal 1, tcVal 2])
    ∧ generate_test_cases "openai"
        [("openai", .response (.json (.arr [tcJson 1, tcJson 2])))]
        "s" "plain" (some 0) (some (.ok "")) = .ok (.plain [tcVal 1, tcVal 2])
    ∧ generate_test_cases "openai"
        [("openai", .response (.json (.arr [tcJson 1, tcJson 2])))]
        "s" "plain" (some 1) (some (.ok "")) = .ok (.plain [tcVal 1])
    ∧ generate_test_cases "openai"
        [("openai", .response (.json (.arr [tcJson 1, tcJson 2])))]
        "s" "plain" (some 5) (some (.ok "")) = .ok (.plain [tcVal 1, tcVal 2]) := by
  have hthm := num_cases_truncation "openai"
    [("openai", .response (.json (.arr [tcJson 1, tcJson 2])))] "s" "plain" ""
    (.plain [tcVal 1, tcVal 2]) rfl
  exact ⟨rfl, hthm.1, hthm.2.2.1 1 (by decide), hthm.2.2.2 5 (by decide)⟩

/-- C4: in multi-provider generation, if zero providers succeed the whole
call fails with the single aggregate error; if exactly one succeeds, its
result is returned untouched (no provider tag, no id reassignment); and an
individual provider's failure is caught, never raised — the loop proceeds
exactly as if that provider were absent. -/
theorem multi_provider_failure_policy :
    (∀ (providers : List (String × LLMBehavior))
       (userStory outputFormat additionalContext : String),
      (∀ p ∈ providers,
        isErr (singleProvider p.1 p.2 userStory outputFormat additionalContext).1 = true) →
      multiProvider providers userStory outputFormat additionalContext =
        .error .allProvidersFailed)
    ∧ (∀ (providers : List (String × LLMBehavior))
         (userStory outputFormat additionalContext : String) (name : String) (r : RootRes),
        providerSuccesses providers userStory outputFormat additionalContext = [(name, r)] →
        multiProvider providers userStory outputFormat additionalContext = .ok r)
    ∧ (∀ (p : String × LLMBehavior) (rest : List (String × LLMBehavior))
         (userStory outputFormat additionalContext : String),
        isErr (singleProvider p.1 p.2 userStory outputFormat additionalContext).1 = true →
        multiProvider (p :: rest) userStory outputFormat additionalContext =
          multiProvider rest userStory outputFormat additionalContext) := by
  refine ⟨?_, ?_, ?_⟩
  · intro providers userStory outputFormat additionalContext hall
    have hnil : providerSuccesses providers userStory outputFormat additionalContext = [] := by
      induction providers with
      | nil => rfl
      | cons p rest ih =>
          rw [providerSuccesses_cons_err p rest _ _ _ (hall p (List.mem_cons_self p rest))]
          exact ih fun q hq => hall q (List.mem_cons_of_mem p hq)
    simp [multiProvider, hnil]
  · intro providers userStory outputFormat additionalContext name r hone
    simp [multiProvider, hone]
  · intro p rest userStory outputFormat additionalContext herr
    simp [multiProvider, providerSuccesses_cons_err p rest _ _ _ herr]

/-- Witness for `multi_provider_failure_policy` at concrete provider lists. -/
theorem multi_provider_failure_policy_witness :
    isErr (singleProvider "openai" (.failure "x") "s" "plain" "").1 = true
    ∧ multiProvider [("openai", .failure "x")] "s" "plain" "" = .error .allProvidersFailed
    ∧ providerSuccesses [("openai", .response (.json (.arr [tcJson 1])))] "s" "plain" "" =
        [("openai", .plain [tcVal 1])]
    ∧ multiProvider [("openai", .response (.json (.arr [tcJson 1])))] "s" "plain" "" =
        .ok (.plain [tcVal 1])
    ∧ multiProvider [("gemini", .failure "x"), ("openai", .response (.json (.arr [tcJson 1])))]
        "s" "plain" "" =
        multiProvider [("openai", .response (.json (.arr [tcJson 1])))] "s" "plain" "" := by
  refine ⟨rfl, ?_, rfl, ?_, ?_⟩
  · exact multi_provider_failure_policy.1 [("openai", .failure "x")] "s" "plain" ""
      (by intro p hp; simp at hp; subst hp; rfl)
  · exact multi_provider_failure_policy.2.1
      [("openai", .response (.json (.arr [tcJson 1])))] "s" "plain" "" "openai"
      (.plain [tcVal 1]) rfl
  · exact multi_provider_failure_policy.2.2 ("gemini", .failure "x")
      [("openai", .response (.json (.arr [tcJson 1])))] "s" "plain" "" rfl

/-- C1: with three providers configured in order P1, P2, P3 where P2's call
fails and P1/P3 succeed with 2 and 3 items, the merge concatenates in
provider-configuration order: 5 items (the sum of the succeeding providers'
list lengths, no deduplication), ids reassigned 1..5 across the merged list
(`TestCase` only — `BDDScenario` has no id field), and every item's
`provider` field stamped with its producing provider (items 1-2 from P1,
items 3-5 from P3). -/
theorem multi_provider_merge_order
    (P1 P2 P3 : String) (b1 b2 b3 b1' b2' b3' : LLMBehavior) (userStory additionalContext : String)
    (cs1 cs3 : List TestCase) (bs1 bs3 : List BDDScenario)
    (h1 : (singleProvider P1 b1 userStory "plain" additionalContext).1 = .ok (.plain cs1))
    (h2 : isErr (singleProvider P2 b2 userStory "plain" additionalContext).1 = true)
    (h3 : (singleProvider P3 b3 userStory "plain" additionalContext).1 = .ok (.plain cs3))
    (hl1 : cs1.length = 2) (hl3 : cs3.length = 3)
    (g1 : (singleProvider P1 b1' userStory "bdd" additionalContext).1 = .ok (.bdd bs1))
    (g2 : isErr (singleProvider P2 b2' userStory "bdd" additionalContext).1 = true)
    (g3 : (singleProvider P3 b3' userStory "bdd" additionalContext).1 = .ok (.bdd bs3))
    (gl1 : bs1.length = 2) (gl3 : bs3.length = 3) :
    (multiProvider [(P1, b1), (P2, b2), (P3, b3)] userStory "plain" additionalContext =
        .ok (.plain (stampPlain 1 P1 cs1 ++ stampPlain 3 P3 cs3))
      ∧ (stampPlain 1 P1 cs1 ++ stampPlain 3 P3 cs3).length = cs1.length + cs3.length
      ∧ (stampPlain 1 P1 cs1 ++ stampPlain 3 P3 cs3).map TestCase.id = [1, 2, 3, 4, 5]
      ∧ (stampPlain 1 P1 cs1 ++ stampPlain 3 P3 cs3).map TestCase.provider =
          [some P1, some P1, some P3, some P3, some P3])
    ∧ (multiProvider [(P1, b1'), (P2, b2'), (P3, b3')] userStory "bdd" additionalContext =
        .ok (.bdd (stampBdd P1 bs1 ++ stampBdd P3 bs3))
      ∧ (stampBdd P1 bs1 ++ stampBdd P3 bs3).length = bs1.length + bs3.length
      ∧ (stampBdd P1 bs1 ++ stampBdd P3 bs3).map BDDScenario.provider =
          [some P1, some P1, some P3, some P3, some P3]) := by
  obtain ⟨a, b, rfl⟩ := List.length_eq_two.mp hl1
  obtain ⟨x, y, z, rfl⟩ := List.length_eq_three.mp hl3
  obtain ⟨u, v, rfl⟩ := List.length_eq_two.mp gl1
  obtain ⟨p, q, w, rfl⟩ := List.length_eq_three.mp gl3
  have hs : providerSuccesses [(P1, b1), (P2, b2), (P3, b3)] userStory "plain"
      additionalContext = [(P1, .plain [a, b]), (P3, .plain [x, y, z])] := by
    rw [providerSuccesses_cons_ok _ _ _ _ _ _ h1, providerSuccesses_cons_err _ _ _ _ _ h2,
      providerSuccesses_cons_ok _ _ _ _ _ _ h3]
    rfl
  have gs : providerSuccesses [(P1, b1'), (P2, b2'), (P3, b3')] userStory "bdd"
      additionalContext = [(P1, .bdd [u, v]), (P3, .bdd [p, q, w])] := by
    rw [providerSuccesses_cons_ok _ _ _ _ _ _ g1, providerSuccesses_cons_err _ _ _ _ _ g2,
      providerSuccesses_cons_ok _ _ _ _ _ _ g3]
    rfl
  have hpp : pyLower "plain" = "plain" := by decide
  have hbp : ¬ (pyLower "bdd" = "plain") := by decide
  refine ⟨⟨?_, ?_, ?_, ?_⟩, ⟨?_, ?_, ?_⟩⟩
  · simp [multiProvider, hs, asPlain, combinePlain, stampPlain, hpp, List.mapM.loop]
  · simp [stampPlain]
  · simp [stampPlain]
  · simp [stampPlain]
  · simp [multiProvider, gs, asBdd, combineBdd, stampBdd, hbp, List.mapM.loop]
  · simp [stampBdd]
  · simp [stampBdd]

/-- Witness for `multi_provider_merge_order` with concrete mocked provider
responses of 2 and 3 items and a failing middle provider. -/
theorem multi_provider_merge_order_witness :
    (singleProvider "openai" (.response (.json (.arr [tcJson 7, tcJson 8])))
        "s" "plain" "").1 = .ok (.plain [tcVal 7, tcVal 8])
    ∧ isErr (singleProvider "gemini" (.failure "boom") "s" "plain" "").1 = true
    ∧ (singleProvider "claude" (.response (.json (.arr [tcJson 4, tcJson 5, tcJson 6])))
        "s" "plain" "").1 = .ok (.plain [tcVal 4, tcVal 5, tcVal 6])
    ∧ multiProvider
        [("openai", .response (.json (.arr [tcJson 7, tcJson 8]))),
         ("gemini", .failure "boom"),
         ("claude", .response (.json (.arr [tcJson 4, tcJson 5, tcJson 6])))]
        "s" "plain" "" =
      .ok (.plain (stampPlain 1 "openai" [tcVal 7, tcVal 8] ++
        stampPlain 3 "claude" [tcVal 4, tcVal 5, tcVal 6]))
    ∧ (stampPlain 1 "openai" [tcVal 7, tcVal 8] ++
        stampPlain 3 "claude" [tcVal 4, tcVal 5, tcVal 6]).map TestCase.id = [1, 2, 3, 4, 5]
    ∧ (stampPlain 1 "openai" [tcVal 7, tcVal 8] ++
        stampPlain 3 "claude" [tcVal 4, tcVal 5, tcVal 6]).map TestCase.provider =
        [some "openai", some "openai", some "claude", some "claude", some "claude"]
    ∧ multiProvider
        [("openai", .response (.json (.arr [bddJson, bddJson]))),
         ("gemini", .failure "boom"),
         ("claude", .response (.json (.arr [bddJson, bddJson, bddJson])))]
        "s" "bdd" "" =
      .ok (.bdd (stampBdd "openai" [bddVal, bddVal] ++
        stampBdd "claude" [bddVal, bddVal, bddVal])) := by
  have hthm := multi_provider_merge_order "openai" "gemini" "claude"
    (.response (.json (.arr [tcJson 7, tcJson 8]))) (.failure "boom")
    (.response (.json (.arr [tcJson 4, tcJson 5, tcJson 6])))
    (.response (.json (.arr [bddJson, bddJson]))) (.failure "boom")
    (.response (.json (.arr [bddJson, bddJson, bddJson])))
    "s" "" [tcVal 7, tcVal 8] [tcVal 4, tcVal 5, tcVal 6]
    [bddVal, bddVal] [bddVal, bddVal, bddVal]
    rfl rfl rfl rfl rfl rfl rfl rfl rfl rfl
  exact ⟨rfl, rfl, rfl, hthm.1.1, hthm.1.2.2.1, hthm.1.2.2.2, hthm.2.1⟩

/-- C8 counterexample: the claim says the legacy batch loop continues
"with no result recorded" for a failing file; but
`FileAnalyzer.analyze_multiple_files` records an error-tagged
`FileAnalysisResult` for it — one input whose analysis raises yields a batch
of length 1 (not 0) with `file_type = "error"`. -/
theorem batch_policy_counterexample :
    legacy_analyze_multiple_files [("bad.txt", .error "boom")] =
      [errorResultFor "bad.txt" "boom"]
    ∧ (legacy_analyze_multiple_files [("bad.txt", .error "boom")]).length = 1
    ∧ (errorResultFor "bad.txt" "boom").file_type = "error"
    ∧ (errorResultFor "bad.txt" "boom").content = "Error analyzing file: boom"
    ∧ (errorResultFor "bad.txt" "boom").metadata = [("error", "boom")] :=
  ⟨rfl, rfl, rfl, rfl, rfl⟩

/-- C8 (amended): neither batch loop aborts on one failing file, but the two
policies are the reverse of the claim's assignment: the LEGACY path converts
every per-file exception into an error-tagged result appended to the batch
(continue-and-record), while the UNIFIED batch loop's `except` would drop a
raising file with no result recorded (continue-and-drop) — though its
`analyze_file` is total and itself converts extraction failures into
`file_type = "error"` results, so in effect every file contributes one
result there too. -/
theorem batch_error_policy :
    (∀ outcomes, (legacy_analyze_multiple_files outcomes).length = outcomes.length)
    ∧ (∀ (path e : String) (rest : List (String × Except String FileAnalysisResult)),
        legacy_analyze_multiple_files ((path, .error e) :: rest) =
          errorResultFor path e :: legacy_analyze_multiple_files rest)
    ∧ (∀ (path : String) (r : FileAnalysisResult)
         (rest : List (String × Except String FileAnalysisResult)),
        legacy_analyze_multiple_files ((path, .ok r) :: rest) =
          r :: legacy_analyze_multiple_files rest)
    ∧ (∀ (clients : ClientSet) (calls : List AnalyzeCall),
        (unified_analyze_multiple_files clients calls).length = calls.length)
    ∧ (∀ (clients : ClientSet) (calls : List AnalyzeCall) (i : Nat) (c : AnalyzeCall),
        calls[i]? = some c →
        (unified_analyze_multiple_files clients calls)[i]? =
          some (analyze_file clients c.path c.fs c.enhanceOutcome))
    ∧ (∀ (clients : ClientSet) (path msg : String) (enhanceOutcome : Except String String),
        (analyze_file clients path (.file (.error msg)) enhanceOutcome).file_type = "error"
        ∧ (analyze_file clients path (.file (.error msg)) enhanceOutcome).error = some msg) := by
  refine ⟨?_, fun _ _ _ => rfl, fun _ _ _ => rfl, ?_, ?_, fun _ _ _ _ => ⟨rfl, rfl⟩⟩
  · intro outcomes
    induction outcomes with
    | nil => rfl
    | cons oc rest ih =>
        obtain ⟨path, r⟩ := oc
        cases r with
        | ok v => simpa [legacy_analyze_multiple_files] using ih
        | error e => simpa [legacy_analyze_multiple_files] using ih
  · intro clients calls
    induction calls with
    | nil => rfl
    | cons c rest ih => simpa [unified_analyze_multiple_files] using ih
  · intro clients calls
    induction calls with
    | nil => intro i c h; simp at h
    | cons hd rest ih =>
        intro i c h
        cases i with
        | zero =>
            simp at h
            subst h
            simp [unified_analyze_multiple_files]
        | succ n =>
            simp only [List.getElem?_cons_succ] at h
            simpa [unified_analyze_multiple_files] using ih n c h

/-- Witness for `batch_error_policy` at concrete batches. -/
theorem batch_error_policy_witness :
    legacy_analyze_multiple_files
        [("bad.txt", .error "e1"), ("ok.txt", .ok (mkFileAnalysisResult "ok.txt" "text" "hi" []))] =
      [errorResultFor "bad.txt" "e1", mkFileAnalysisResult "ok.txt" "text" "hi" []]
    ∧ (legacy_analyze_multiple_files
        [("bad.txt", .error "e1"), ("ok.txt", .ok (mkFileAnalysisResult "ok.txt" "text" "hi" []))]).length = 2
    ∧ (([⟨"x.txt", .file (.error "boom"), .ok "enh"⟩] : List AnalyzeCall)[0]? =
        some ⟨"x.txt", .file (.error "boom"), .ok "enh"⟩)
    ∧ (unified_analyze_multiple_files ⟨true, true, true⟩
        [⟨"x.txt", .file (.error "boom"), .ok "enh"⟩])[0]? =
        some (analyze_file ⟨true, true, true⟩ "x.txt" (.file (.error "boom")) (.ok "enh"))
    ∧ (analyze_file ⟨true, true, true⟩ "x.txt" (.file (.error "boom")) (.ok "enh")).file_type =
        "error"
    ∧ (analyze_file ⟨true, true, true⟩ "x.txt" (.file (.error "boom")) (.ok "enh")).error =
        some "boom" := by
  refine ⟨?_, batch_error_policy.1 _, rfl, ?_, ?_, ?_⟩
  · rw [batch_error_policy.2.1, batch_error_policy.2.2.1]
    rfl
  · exact batch_error_policy.2.2.2.2.1 ⟨true, true, true⟩
      [⟨"x.txt", .file (.error "boom"), .ok "enh"⟩] 0
      ⟨"x.txt", .file (.error "boom"), .ok "enh"⟩ rfl
  · exact (batch_error_policy.2.2.2.2.2 ⟨true, true, true⟩ "x.txt" "boom" (.ok "enh")).1
  · exact (batch_error_policy.2.2.2.2.2 ⟨true, true, true⟩ "x.txt" "boom" (.ok "enh")).2

end SmartCaseAI
